import Mathlib

/-!
Shallow embedding of the typed-handle and asset-type-registry layer of
`bevy_atelier` (files `src/crates/bevy_atelier/src/handle.rs` and
`src/crates/bevy_atelier/src/asset_type_registry.rs`).

The handle internals of the external `atelier_loader` crate
(`AtomicHandleAllocator`, `LoadHandle`, `GenericHandle` alias
`AtelierHandleUntyped`) are not part of the excerpted source; where their
behaviour decides a claim they are modelled from the specification text, and
each such definition says so in its doc comment.  Reference-count side
effects are made explicit: every operation that can signal the asset server
returns, next to its result, the list of `RefOp` messages it emits.
-/

/-- The raw 64-bit load-handle value issued by the allocator
(`atelier_loader::LoadHandle`).  The counter is a `u64`; values are kept as
`Nat` and reduced modulo `2 ^ 64` exactly where the machine arithmetic wraps. -/
structure LoadHandle where
  val : Nat
deriving DecidableEq, Repr

/-- A unique id that corresponds to a specific asset
(`pub struct HandleId(pub LoadHandle)` in `handle.rs`). -/
structure HandleId where
  loadHandle : LoadHandle
deriving DecidableEq, Repr

/-- The ID of the "default" asset:
`DEFAULT_HANDLE_ID: HandleId = HandleId(LoadHandle(1))`. -/
def DEFAULT_HANDLE_ID : HandleId := ⟨⟨1⟩⟩

/-- Modelled from the spec: the ownership-signal channel toward the external
asset server carries two message kinds keyed by the handle identifier,
`AddReference` emitted on handle construction/clone and `RemoveReference`
emitted on drop (spec section 6). -/
inductive RefOp where
  | addReference (id : LoadHandle)
  | removeReference (id : LoadHandle)
deriving DecidableEq, Repr

/-- Modelled from the spec: `atelier_loader`'s `GenericHandle` (imported in
`handle.rs` as `AtelierHandleUntyped`), the payload shared by all handle
variants: a sender for the ownership-signal channel plus the raw load
handle.  Identity is carried by the load handle alone. -/
structure AtelierHandleUntyped where
  senderId : Nat
  loadHandle : LoadHandle
deriving DecidableEq, Repr

namespace AtelierHandleUntyped

/-- Modelled from the spec: constructing a handle registers a new shared
reference to its slot, an add-reference signal toward the owning asset
server (spec sections 4.2 and 6). -/
def new (senderId : Nat) (lh : LoadHandle) : AtelierHandleUntyped × List RefOp :=
  (⟨senderId, lh⟩, [.addReference lh])

/-- Modelled from the spec: cloning a handle duplicates it and increments the
shared reference count for its id, a signal to the owner (spec section 4.2). -/
def clone (h : AtelierHandleUntyped) : AtelierHandleUntyped × List RefOp :=
  (h, [.addReference h.loadHandle])

/-- Modelled from the spec: dropping a handle decrements the shared reference
count for its id (spec section 4.2). -/
def drop (h : AtelierHandleUntyped) : List RefOp :=
  [.removeReference h.loadHandle]

/-- Returns the raw load handle (`AssetHandle::load_handle`). -/
def load_handle (h : AtelierHandleUntyped) : LoadHandle :=
  h.loadHandle

/-- Modelled from the spec: equality of the shared handle payload is defined
by the raw id alone; the channel sender does not participate. -/
def beqFn (a b : AtelierHandleUntyped) : Bool :=
  a.loadHandle == b.loadHandle

/-- Modelled from the spec: the data a handle feeds to a hasher is its raw
id, so two handles with equal ids hash identically. -/
def hashData (h : AtelierHandleUntyped) : Nat :=
  h.loadHandle.val

end AtelierHandleUntyped

/-- A handle into a specific asset of type `T` (`pub struct Handle<T>` in
`handle.rs`); the `PhantomData<T>` marker is the type parameter itself. -/
structure Handle (T : Type) where
  handle : AtelierHandleUntyped
deriving DecidableEq, Repr

/-- A non-generic version of `Handle`
(`pub struct HandleUntyped` in `handle.rs`). -/
structure HandleUntyped where
  handle : AtelierHandleUntyped
deriving DecidableEq, Repr

namespace Handle

/-- Gets a handle for the given type that has this handle's id
(`Handle::as_handle<U>` in `handle.rs`): it clones the inner shared handle,
so it also emits whatever signals that clone emits. -/
def as_handle (U : Type) (h : Handle T) : Handle U × List RefOp :=
  let c := h.handle.clone
  (⟨c.1⟩, c.2)

/-- Returns `HandleId(self.handle.load_handle())` (`Handle::id` in `handle.rs`). -/
def id (h : Handle T) : HandleId :=
  ⟨h.handle.load_handle⟩

/-- Duplicates the handle by cloning the inner shared handle
(`impl Clone for Handle<T>` in `handle.rs`). -/
def clone (h : Handle T) : Handle T × List RefOp :=
  let c := h.handle.clone
  (⟨c.1⟩, c.2)

/-- Dropping a `Handle<T>` drops its inner shared handle. -/
def drop (h : Handle T) : List RefOp :=
  h.handle.drop

/-- Equality of typed handles delegates to the inner shared handle:
`self.handle == other.handle` (`impl PartialEq for Handle<T>`). -/
def eqFn (a b : Handle T) : Bool :=
  a.handle.beqFn b.handle

/-- Hashing a typed handle feeds only the inner shared handle to the hasher:
`self.handle.hash(state)` (`impl Hash for Handle<T>`). -/
def hashData (h : Handle T) : Nat :=
  h.handle.hashData

/-- Conversion `impl From<HandleUntyped> for Handle<T>`: moves the inner
shared handle (`handle.handle.into()` is the identity conversion); no
clone or drop runs, so no signal is emitted. -/
def ofUntyped (T : Type) (u : HandleUntyped) : Handle T × List RefOp :=
  (⟨u.handle⟩, [])

end Handle

/-- Conversion `impl From<Handle<T>> for HandleUntyped`: moves the inner
shared handle; no clone or drop runs, so no signal is emitted. -/
def HandleUntyped.ofTyped (h : Handle T) : HandleUntyped × List RefOp :=
  (⟨h.handle⟩, [])

/-- Modelled from the spec: `atelier_loader`'s `AtomicHandleAllocator`, a
single atomically incremented `u64` counter; `allocate` is a fetch-and-add
returning the previous counter value.  The stored counter is always below
`2 ^ 64`. -/
structure AtomicHandleAllocator where
  next : Nat
deriving DecidableEq, Repr

namespace AtomicHandleAllocator

/-- The constructor `AtomicHandleAllocator::new(n)`. -/
def new (n : Nat) : AtomicHandleAllocator := ⟨n⟩

/-- Modelled from the spec: `allocate()` atomically fetches the counter and
increments it, wrapping as a `u64` does.  Because the fetch-and-add is a
single atomic step, every concurrent execution is equivalent to some
sequential interleaving of these steps. -/
def allocate (a : AtomicHandleAllocator) : LoadHandle × AtomicHandleAllocator :=
  (⟨a.next⟩, ⟨(a.next + 1) % 2 ^ 64⟩)

end AtomicHandleAllocator

/-- The process-wide allocator of `handle.rs`:
`HANDLE_ALLOCATOR: AtomicHandleAllocator = AtomicHandleAllocator::new(2)`. -/
def HANDLE_ALLOCATOR : AtomicHandleAllocator := .new 2

/-- The list of identifiers returned by `k` successive calls to `allocate()`
starting from allocator state `a`. -/
def allocResults (a : AtomicHandleAllocator) : Nat → List LoadHandle
  | 0 => []
  | k + 1 =>
    let r := a.allocate
    r.1 :: allocResults r.2 k

/-- The stable 128-bit per-type identifier
(`pub struct AssetTypeId(pub type_uuid::Bytes)`, manually assigned via
`TypeUuid::UUID`). -/
structure AssetTypeId where
  uuid : Nat
deriving DecidableEq, Repr

/-- The strongly-typed storage resource `Assets<T>` for the asset type with
the given identifier, as exposed to a registry callback through
`AssetsRefCell` as a `&dyn atelier_loader::AssetStorage` capability. -/
structure AssetStorage where
  forType : AssetTypeId
deriving DecidableEq, Repr

/-- The asset server resource; all a handle constructor takes from it is the
sender of the ownership-signal channel (`AssetServer::ref_op_tx`). -/
structure AssetServer where
  senderId : Nat
deriving DecidableEq, Repr

/-- The sender of the ownership-signal channel (`AssetServer::ref_op_tx`). -/
def AssetServer.ref_op_tx (s : AssetServer) : Nat :=
  s.senderId

/-- The ambient `bevy_ecs::Resources` store, restricted to what this layer
reads from it: the optional `AssetServer` resource, and for each asset type
the optional `Assets<T>` storage resource, keyed by the type's identifier. -/
structure Resources where
  assetServer : Option AssetServer
  assets : AssetTypeId → Option AssetStorage

/-- Outcome of a type-erased storage access through the registry: either the
caller-supplied operation was invoked with the storage capability, or the
lookup failed with a recoverable error reported to the caller, or the
process aborted with a panic message. -/
inductive GetStorageResult where
  | invoked (st : AssetStorage)
  | failed (e : String)
  | panicked (msg : String)
deriving DecidableEq, Repr

/-- The recoverable error name for a `get_storage` call on a type identifier
that was never registered (spec section 7). -/
def UnregisteredAssetType : String := "UnregisteredAssetType"

/-- The recoverable error name the spec assigns to a lookup whose
registration exists but whose backing storage resource is absent
(spec section 7). -/
def StorageUnavailable : String := "StorageUnavailable"

/-- Per-type capability record (`struct AssetRegistration` in
`asset_type_registry.rs`): the type identifier plus the fetch-and-invoke
function resolved once at registration time. -/
structure AssetRegistration where
  ty : AssetTypeId
  get_assets_storage_fn : Resources → GetStorageResult

/-- The registration constructor `AssetRegistration::of::<T>()`: stores
`AssetTypeId(T::UUID)` and a fetch function that looks `Assets<T>` up in the
resources and invokes the callback with it, or panics with
"Asset storage not found" (`.expect(...)` in the source) when the storage
resource is absent. -/
def AssetRegistration.of (ty : AssetTypeId) : AssetRegistration where
  ty := ty
  get_assets_storage_fn := fun res =>
    match res.assets ty with
    | some st => .invoked st
    | none => .panicked "Asset storage not found"

/-- Directory of all known asset types
(`struct AssetTypeRegistry` in `asset_type_registry.rs`); the `HashMap`
contents are modelled extensionally as a partial map from type identifier
to registration. -/
structure AssetTypeRegistry where
  registrations : AssetTypeId → Option AssetRegistration

/-- The empty registry (`#[derive(Default)]`). -/
def AssetTypeRegistry.empty : AssetTypeRegistry :=
  ⟨fun _ => none⟩

/-- `AssetTypeRegistry::register::<T>()`: inserts
`AssetRegistration::of::<T>()` under the key `AssetTypeId(T::UUID)`,
replacing any previous entry (`HashMap::insert`). -/
def AssetTypeRegistry.register (r : AssetTypeRegistry) (ty : AssetTypeId) :
    AssetTypeRegistry :=
  ⟨fun i => if i = ty then some (AssetRegistration.of ty) else r.registrations i⟩

/-- Modelled from the spec: `get_storage(type_id, operation)` is not part of
the excerpted source (only the registry it reads is); per spec section 4.4
it looks up the registration for `type_id` and, if found, invokes the
operation with a handle to that type's storage via the stored fetch
function; if no registration is found the call fails with
`UnregisteredAssetType` and the operation is never invoked.  It reads the
registry immutably. -/
def AssetTypeRegistry.get_storage (r : AssetTypeRegistry) (ty : AssetTypeId)
    (res : Resources) : GetStorageResult :=
  match r.registrations ty with
  | some reg => reg.get_assets_storage_fn res
  | none => .failed UnregisteredAssetType

/-- How one of the `N` handles sharing an id came to exist: as a fresh
construction (allocation or default construction) or as a clone of an
already-live handle with that id. -/
inductive MkOp where
  | fresh
  | cloneOf
deriving DecidableEq, Repr

/-- The signals emitted when one handle with id `lh` (sender `sid`) is made
by the given operation, computed from the handle operations themselves. -/
def mkOpSignals (sid : Nat) (lh : LoadHandle) : MkOp → List RefOp
  | .fresh => (AtelierHandleUntyped.new sid lh).2
  | .cloneOf => (AtelierHandleUntyped.mk sid lh).clone.2

/-- The full signal trace of constructing handles sharing id `lh` by the
operations in `ops` (in program order) and then dropping all of them:
the construction-phase signals followed by one drop per constructed handle. -/
def constructThenDropSignals (sid : Nat) (lh : LoadHandle) (ops : List MkOp) :
    List RefOp :=
  (ops.map (mkOpSignals sid lh)).flatten ++
    (ops.map fun _ => (AtelierHandleUntyped.mk sid lh).drop).flatten

/-- Whether a signal is an `AddReference`. -/
def RefOp.isAdd : RefOp → Bool
  | .addReference _ => true
  | .removeReference _ => false

/-- Whether a signal is a `RemoveReference`. -/
def RefOp.isRemove : RefOp → Bool
  | .addReference _ => false
  | .removeReference _ => true

/-- The external owner's bookkeeping, processing the signal list in order:
`AddReference` increments its count, `RemoveReference` decrements it, and
each decrement that brings the count to zero is one "count reached zero"
notification.  Returns the final count and how many times zero was reached. -/
def ownerRun : List RefOp → Nat → Nat → Nat × Nat
  | [], count, zeroHits => (count, zeroHits)
  | .addReference _ :: rest, count, zeroHits => ownerRun rest (count + 1) zeroHits
  | .removeReference _ :: rest, count, zeroHits =>
    ownerRun rest (count - 1) (if count - 1 = 0 then zeroHits + 1 else zeroHits)

/-- `impl<T> FromResources for Handle<T>` in `handle.rs`: fetches the
`AssetServer` resource (panicking with "No AssetServer in resources" when it
is absent), takes its ref-op sender and builds the handle on
`DEFAULT_HANDLE_ID.0`; the panic is modelled as `Except.error`. -/
def Handle.from_resources (T : Type) (res : Resources) :
    Except String (Handle T × List RefOp) :=
  match res.assetServer with
  | none => .error "No AssetServer in resources"
  | some server =>
    let sender := server.ref_op_tx
    let n := AtelierHandleUntyped.new sender DEFAULT_HANDLE_ID.loadHandle
    .ok (⟨n.1⟩, n.2)

/-- `impl FromResources for HandleUntyped` in `handle.rs`: same construction
as the typed variant, without the type tag. -/
def HandleUntyped.from_resources (res : Resources) :
    Except String (HandleUntyped × List RefOp) :=
  match res.assetServer with
  | none => .error "No AssetServer in resources"
  | some server =>
    let sender := server.ref_op_tx
    let n := AtelierHandleUntyped.new sender DEFAULT_HANDLE_ID.loadHandle
    .ok (⟨n.1⟩, n.2)

theorem allocResults_closed (k : Nat) : ∀ s : Nat, s < 2 ^ 64 →
    allocResults ⟨s⟩ k =
      (List.range k).map (fun i => LoadHandle.mk ((s + i) % 2 ^ 64)) := by
  induction k with
  | zero => intro s _; rfl
  | succ k ih =>
    intro s hs
    have hlt : (s + 1) % 2 ^ 64 < 2 ^ 64 := Nat.mod_lt _ (by norm_num)
    have htail : ∀ i : Nat,
        ((s + 1) % 2 ^ 64 + i) % 2 ^ 64 = (s + (i + 1)) % 2 ^ 64 := by
      intro i
      rw [Nat.mod_add_mod]
      congr 1
      omega
    simp only [allocResults, AtomicHandleAllocator.allocate, ih _ hlt,
      List.range_succ_eq_map, List.map_cons, List.map_map, Function.comp_def,
      Nat.succ_eq_add_one, htail, Nat.add_zero, Nat.mod_eq_of_lt hs]

/-- C1: every pair of identifiers returned by calls to `allocate()` on
`HANDLE_ALLOCATOR` (whose atomic fetch-and-add linearizes concurrent calls
into a sequence) is distinct, and no returned identifier equals the reserved
sentinel `LoadHandle 1`, as long as the `u64` counter starting at 2 does not
wrap (at most `2 ^ 64 - 2` calls, the spec's unreachable-exhaustion bound). -/
theorem allocate_unique_never_sentinel (k : Nat) (hk : k ≤ 2 ^ 64 - 2) :
    (allocResults HANDLE_ALLOCATOR k).Pairwise (fun a b => a ≠ b) ∧
      ∀ h ∈ allocResults HANDLE_ALLOCATOR k, h ≠ DEFAULT_HANDLE_ID.loadHandle := by
  have hform : allocResults HANDLE_ALLOCATOR k =
      (List.range k).map (fun i => LoadHandle.mk (2 + i)) := by
    rw [show HANDLE_ALLOCATOR = ⟨2⟩ from rfl, allocResults_closed k 2 (by norm_num)]
    apply List.map_congr_left
    intro i hi
    have hik : i < k := List.mem_range.mp hi
    have hsmall : 2 + i < 2 ^ 64 := by omega
    rw [Nat.mod_eq_of_lt hsmall]
  rw [hform]
  refine ⟨?_, ?_⟩
  · have hinj : Function.Injective (fun i => LoadHandle.mk (2 + i)) := by
      intro a b hab
      have := congrArg LoadHandle.val hab
      simpa using this
    exact (List.nodup_range k).map hinj
  · intro h hmem
    obtain ⟨i, _, rfl⟩ := List.mem_map.mp hmem
    intro hbad
    have := congrArg LoadHandle.val (congrArg HandleId.loadHandle (congrArg HandleId.mk hbad))
    simp [DEFAULT_HANDLE_ID] at this
    omega

/-- C1 witness: three allocations from the starting allocator are pairwise
distinct and none is the sentinel. -/
theorem allocate_unique_never_sentinel_witness :
    (allocResults HANDLE_ALLOCATOR 3).Pairwise (fun a b => a ≠ b) ∧
      ∀ h ∈ allocResults HANDLE_ALLOCATOR 3, h ≠ DEFAULT_HANDLE_ID.loadHandle :=
  allocate_unique_never_sentinel 3 (by norm_num)

/-- C2: two handles of different declared types built over the same underlying
id have equal `id()`, identical hash input, and compare equal through the
id-only equality of `Handle<T>`, whichever type tag the comparison is
instantiated at — the type parameter participates in neither equality nor
hashing. -/
theorem handle_eq_hash_by_id_only (A B : Type) (u v : AtelierHandleUntyped)
    (h : u.loadHandle = v.loadHandle) :
    (Handle.mk u : Handle A).id = (Handle.mk v : Handle B).id ∧
    Handle.hashData (Handle.mk u : Handle A) =
      Handle.hashData (Handle.mk v : Handle B) ∧
    Handle.eqFn (Handle.mk u : Handle A) (Handle.mk v) = true ∧
    Handle.eqFn (Handle.mk u : Handle B) (Handle.mk v) = true := by
  refine ⟨?_, ?_, ?_, ?_⟩ <;>
    simp [Handle.id, Handle.hashData, Handle.eqFn, AtelierHandleUntyped.beqFn,
      AtelierHandleUntyped.hashData, AtelierHandleUntyped.load_handle, h]

/-- C2 witness: two handles with different type tags and different channel
senders but the same id 5 agree on id, hash and equality. -/
theorem handle_eq_hash_by_id_only_witness :
    (Handle.mk ⟨0, ⟨5⟩⟩ : Handle Unit).id = (Handle.mk ⟨9, ⟨5⟩⟩ : Handle Bool).id ∧
    Handle.hashData (Handle.mk ⟨0, ⟨5⟩⟩ : Handle Unit) =
      Handle.hashData (Handle.mk ⟨9, ⟨5⟩⟩ : Handle Bool) ∧
    Handle.eqFn (Handle.mk ⟨0, ⟨5⟩⟩ : Handle Unit) (Handle.mk ⟨9, ⟨5⟩⟩) = true ∧
    Handle.eqFn (Handle.mk ⟨0, ⟨5⟩⟩ : Handle Bool) (Handle.mk ⟨9, ⟨5⟩⟩) = true :=
  handle_eq_hash_by_id_only Unit Bool ⟨0, ⟨5⟩⟩ ⟨9, ⟨5⟩⟩ rfl

/-- C3 counterexample: `as_handle` on a concrete handle does emit an
ownership signal (the `AddReference` of cloning the inner shared handle), so
the claim that the call emits no additional ownership signal is false. -/
theorem as_handle_no_signal_cex :
    ¬ ((Handle.as_handle Bool (Handle.mk ⟨0, ⟨5⟩⟩ : Handle Unit)).2 =
        ([] : List RefOp)) := by
  decide

/-- C3 amended: `as_handle::<U>()` returns a handle whose `id()` equals the
original's (no new identifier is allocated), and it emits exactly the one
`AddReference` signal of cloning the underlying shared handle — the
shared-ownership increment — not zero signals. -/
theorem as_handle_preserves_id_one_signal (T U : Type) (h : Handle T) :
    (h.as_handle U).1.id = h.id ∧
    (h.as_handle U).2 = [RefOp.addReference h.handle.loadHandle] := by
  refine ⟨?_, ?_⟩ <;>
    simp [Handle.as_handle, Handle.id, AtelierHandleUntyped.clone,
      AtelierHandleUntyped.load_handle]

/-- C7: converting a typed handle to untyped and back to the same type yields
a handle with the same underlying id, and neither conversion emits an
ownership signal (both move the inner shared handle; no clone or drop runs). -/
theorem typed_untyped_roundtrip_lossless (T : Type) (h : Handle T) :
    (Handle.ofUntyped T (HandleUntyped.ofTyped h).1).1.id = h.id ∧
    (HandleUntyped.ofTyped h).2 = ([] : List RefOp) ∧
    (Handle.ofUntyped T (HandleUntyped.ofTyped h).1).2 = ([] : List RefOp) := by
  refine ⟨?_, rfl, rfl⟩
  rfl

/-- C4 counterexample: with a registration present for type id 100 but no
`Assets` storage in the resources, `get_storage` ends in the panic
"Asset storage not found" (the source's `.expect`), not in a recoverable
`StorageUnavailable` failure reported to the caller. -/
theorem storage_absent_panics_cex :
    (AssetTypeRegistry.empty.register ⟨100⟩).get_storage ⟨100⟩
        ⟨none, fun _ => none⟩ = .panicked "Asset storage not found" ∧
    (AssetTypeRegistry.empty.register ⟨100⟩).get_storage ⟨100⟩
        ⟨none, fun _ => none⟩ ≠ .failed StorageUnavailable := by
  refine ⟨rfl, ?_⟩
  intro h
  exact absurd h (by decide)

/-- C4 amended: when a registration exists for a type identifier but the
backing storage resource is absent from the current execution context, the
lookup panics with "Asset storage not found" (aborting the process), rather
than returning a recoverable `StorageUnavailable` failure. -/
theorem storage_absent_panics (r : AssetTypeRegistry) (ty : AssetTypeId)
    (res : Resources) (hreg : r.registrations ty = some (AssetRegistration.of ty))
    (habs : res.assets ty = none) :
    r.get_storage ty res = .panicked "Asset storage not found" := by
  simp [AssetTypeRegistry.get_storage, hreg, AssetRegistration.of, habs]

/-- C4 witness: the amended behaviour at the concrete registry holding type
id 100 and empty resources. -/
theorem storage_absent_panics_witness :
    (AssetTypeRegistry.empty.register ⟨100⟩).registrations ⟨100⟩ =
        some (AssetRegistration.of ⟨100⟩) ∧
    (AssetTypeRegistry.empty.register ⟨100⟩).get_storage ⟨100⟩
        ⟨none, fun _ => none⟩ = .panicked "Asset storage not found" :=
  ⟨rfl, storage_absent_panics (AssetTypeRegistry.empty.register ⟨100⟩) ⟨100⟩
    ⟨none, fun _ => none⟩ rfl rfl⟩

/-- C6: `get_storage` on a type identifier with no registration returns the
`UnregisteredAssetType` failure and never invokes the supplied operation;
the registry is read immutably (`get_storage` is a pure function of it), so
the call has no effect on the registry. -/
theorem unregistered_lookup_fails (r : AssetTypeRegistry) (ty : AssetTypeId)
    (res : Resources) (h : r.registrations ty = none) :
    r.get_storage ty res = .failed UnregisteredAssetType ∧
    ∀ st : AssetStorage, r.get_storage ty res ≠ .invoked st := by
  refine ⟨?_, ?_⟩ <;> simp [AssetTypeRegistry.get_storage, h]

/-- C6 witness: looking type id 5 up in the empty registry fails with
`UnregisteredAssetType` and invokes no operation. -/
theorem unregistered_lookup_fails_witness :
    AssetTypeRegistry.empty.get_storage ⟨5⟩ ⟨none, fun _ => none⟩ =
        .failed UnregisteredAssetType ∧
    ∀ st : AssetStorage, AssetTypeRegistry.empty.get_storage ⟨5⟩
        ⟨none, fun _ => none⟩ ≠ .invoked st :=
  unregistered_lookup_fails AssetTypeRegistry.empty ⟨5⟩ ⟨none, fun _ => none⟩ rfl

/-- C8: default construction of a typed handle through `from_resources`
(with an `AssetServer` present) yields a handle whose `id()` is the sentinel
`DEFAULT_HANDLE_ID`, whose stable literal value is 1. -/
theorem default_handle_id_is_sentinel (T : Type) (res : Resources)
    (srv : AssetServer) (h : res.assetServer = some srv) :
    ∃ hd sigs, Handle.from_resources T res = .ok (hd, sigs) ∧
      hd.id = DEFAULT_HANDLE_ID ∧ hd.id.loadHandle.val = 1 := by
  refine ⟨⟨⟨srv.ref_op_tx, DEFAULT_HANDLE_ID.loadHandle⟩⟩,
    [.addReference DEFAULT_HANDLE_ID.loadHandle], ?_, rfl, rfl⟩
  simp [Handle.from_resources, h, AtelierHandleUntyped.new]

/-- C8 witness: a concrete resource store holding an `AssetServer` gives a
default handle bound to id 1. -/
theorem default_handle_id_is_sentinel_witness :
    ∃ hd sigs,
      Handle.from_resources Unit ⟨some ⟨0⟩, fun _ => none⟩ = .ok (hd, sigs) ∧
        hd.id = DEFAULT_HANDLE_ID ∧ hd.id.loadHandle.val = 1 :=
  default_handle_id_is_sentinel Unit ⟨some ⟨0⟩, fun _ => none⟩ ⟨0⟩ rfl

/-- C9: `register` is idempotent — registering the same type twice in
succession leaves the registry in the same state as registering it once:
the same set of keys, each mapped to the same registration record. -/
theorem register_idempotent (r : AssetTypeRegistry) (ty : AssetTypeId) :
    (r.register ty).register ty = r.register ty := by
  show AssetTypeRegistry.mk _ = AssetTypeRegistry.mk _
  congr 1
  funext i
  by_cases h : i = ty <;> simp [AssetTypeRegistry.register, h]

/-- C10: `from_resources` for both `Handle<T>` and `HandleUntyped` panics
with "No AssetServer in resources" exactly when the resource store has no
`AssetServer`, and returns a handle normally when one is present. -/
theorem from_resources_requires_asset_server (T : Type) (res : Resources) :
    (res.assetServer = none →
      Handle.from_resources T res = .error "No AssetServer in resources" ∧
      HandleUntyped.from_resources res = .error "No AssetServer in resources") ∧
    (∀ srv : AssetServer, res.assetServer = some srv →
      (∃ x, Handle.from_resources T res = .ok x) ∧
      (∃ y, HandleUntyped.from_resources res = .ok y)) := by
  refine ⟨fun hn => ?_, fun srv hs => ?_⟩
  · constructor <;> simp [Handle.from_resources, HandleUntyped.from_resources, hn]
  · refine ⟨⟨(⟨⟨srv.ref_op_tx, DEFAULT_HANDLE_ID.loadHandle⟩⟩,
        [.addReference DEFAULT_HANDLE_ID.loadHandle]), ?_⟩,
      ⟨(⟨⟨srv.ref_op_tx, DEFAULT_HANDLE_ID.loadHandle⟩⟩,
        [.addReference DEFAULT_HANDLE_ID.loadHandle]), ?_⟩⟩ <;>
      simp [Handle.from_resources, HandleUntyped.from_resources, hs,
        AtelierHandleUntyped.new]

/-- C10 witness: without an `AssetServer` both constructors report the panic
message; with one present both return a handle. -/
theorem from_resources_requires_asset_server_witness :
    (Handle.from_resources Unit ⟨none, fun _ => none⟩ =
        .error "No AssetServer in resources" ∧
      HandleUntyped.from_resources ⟨none, fun _ => none⟩ =
        .error "No AssetServer in resources") ∧
    ((∃ x, Handle.from_resources Unit ⟨some ⟨3⟩, fun _ => none⟩ = .ok x) ∧
      (∃ y, HandleUntyped.from_resources ⟨some ⟨3⟩, fun _ => none⟩ = .ok y)) :=
  ⟨(from_resources_requires_asset_server Unit ⟨none, fun _ => none⟩).1 rfl,
    (from_resources_requires_asset_server Unit ⟨some ⟨3⟩, fun _ => none⟩).2 ⟨3⟩ rfl⟩

theorem mkOpSignals_eq (sid : Nat) (lh : LoadHandle) (op : MkOp) :
    mkOpSignals sid lh op = [RefOp.addReference lh] := by
  cases op <;> rfl

theorem constructPhase_eq (sid : Nat) (lh : LoadHandle) (ops : List MkOp) :
    (ops.map (mkOpSignals sid lh)).flatten =
      List.replicate ops.length (RefOp.addReference lh) := by
  induction ops with
  | nil => rfl
  | cons o rest ih => simp [mkOpSignals_eq, ih, List.replicate_succ]

theorem dropPhase_eq (sid : Nat) (lh : LoadHandle) (ops : List MkOp) :
    (ops.map fun _ => (AtelierHandleUntyped.mk sid lh).drop).flatten =
      List.replicate ops.length (RefOp.removeReference lh) := by
  induction ops with
  | nil => rfl
  | cons o rest ih => simp [AtelierHandleUntyped.drop, ih, List.replicate_succ]
  
theorem ownerRun_append (l1 l2 : List RefOp) : ∀ c z : Nat,
    ownerRun (l1 ++ l2) c z =
      ownerRun l2 (ownerRun l1 c z).1 (ownerRun l1 c z).2 := by
  induction l1 with
  | nil => intro c z; rfl
  | cons s rest ih => intro c z; cases s <;> simp [ownerRun, ih]

theorem ownerRun_adds (lh : LoadHandle) (n : Nat) : ∀ c z : Nat,
    ownerRun (List.replicate n (RefOp.addReference lh)) c z = (c + n, z) := by
  induction n with
  | zero => intro c z; rfl
  | succ n ih =>
    intro c z
    simp only [List.replicate_succ, ownerRun, ih, Prod.mk.injEq]
    exact ⟨by omega, trivial⟩

theorem ownerRun_removes (lh : LoadHandle) (n : Nat) : ∀ z : Nat,
    ownerRun (List.replicate (n + 1) (RefOp.removeReference lh)) (n + 1) z =
      (0, z + 1) := by
  induction n with
  | zero => intro z; rfl
  | succ n ih =>
    intro z
    simp only [List.replicate_succ, ownerRun, Nat.add_sub_cancel]
    have hnz : ¬ (n + 1 = 0) := Nat.succ_ne_zero n
    rw [if_neg hnz]
    exact ih z

/-- C5: constructing `N ≥ 1` handles sharing one id (via fresh construction
or clone, in any order given by `ops`) and then dropping all `N` emits as
many `AddReference` as `RemoveReference` signals for that id (`N` of each),
and the owner processing the signals in order sees the count reach zero
exactly once. -/
theorem refcount_balance (sid : Nat) (lh : LoadHandle) (ops : List MkOp)
    (hN : 1 ≤ ops.length) :
    ((constructThenDropSignals sid lh ops).filter RefOp.isAdd).length =
        ops.length ∧
    ((constructThenDropSignals sid lh ops).filter RefOp.isRemove).length =
        ops.length ∧
    (ownerRun (constructThenDropSignals sid lh ops) 0 0).2 = 1 := by
  obtain ⟨m, hm⟩ : ∃ m, ops.length = m + 1 :=
    ⟨ops.length - 1, by omega⟩
  have hsigs : constructThenDropSignals sid lh ops =
      List.replicate ops.length (RefOp.addReference lh) ++
        List.replicate ops.length (RefOp.removeReference lh) := by
    rw [constructThenDropSignals, constructPhase_eq, dropPhase_eq]
  refine ⟨?_, ?_, ?_⟩
  · rw [hsigs]
    simp [List.filter_append, List.filter_replicate, RefOp.isAdd, RefOp.isRemove]
  · rw [hsigs]
    simp [List.filter_append, List.filter_replicate, RefOp.isAdd, RefOp.isRemove]
  · rw [hsigs, ownerRun_append, ownerRun_adds, hm, Nat.zero_add,
      ownerRun_removes]

/-- C5 witness: one fresh handle with id 7 plus three clones, then four
drops (the spec's scenario 3): four adds, four removes, zero reached once. -/
theorem refcount_balance_witness :
    ((constructThenDropSignals 0 ⟨7⟩
        [.fresh, .cloneOf, .cloneOf, .cloneOf]).filter RefOp.isAdd).length = 4 ∧
    ((constructThenDropSignals 0 ⟨7⟩
        [.fresh, .cloneOf, .cloneOf, .cloneOf]).filter RefOp.isRemove).length = 4 ∧
    (ownerRun (constructThenDropSignals 0 ⟨7⟩
        [.fresh, .cloneOf, .cloneOf, .cloneOf]) 0 0).2 = 1 :=
  refcount_balance 0 ⟨7⟩ [.fresh, .cloneOf, .cloneOf, .cloneOf] (by decide)
